import Mathlib

/-!
# Fatal error screen (`stratosphere/fatal/source/fatal_task_screen.cpp`)

A shallow embedding of the fatal-screen task: the block-linear pixel addressor
`GetPixelOffset`, the display setup sequence `PrepareScreenForDrawing` with its two
scoped helpers, and the drawing routine `ShowFatal`.

Machine integers are natural numbers; every `u32` operation that can leave the 32-bit
range is reduced modulo `2 ^ 32` explicitly.  Calls into the display service are
recorded, in program order, in a trace of `Call`s; the status code each call returns is
read from an environment `Env`.
-/

namespace Fatal

/-! ## Machine arithmetic -/

/-- Reduction of a natural number to the range of a `u32`. -/
def u32 (n : Nat) : Nat := n % 2 ^ 32

/-- Subtraction of `u32` values: the difference modulo `2 ^ 32`. -/
def u32sub (a b : Nat) : Nat := (a % 2 ^ 32 + (2 ^ 32 - b % 2 ^ 32)) % 2 ^ 32

/-! ## Surface geometry (source lines 26-31) -/

/-- Logical width of the surface: `static constexpr u32 FatalScreenWidth = 1280`. -/
def FatalScreenWidth : Nat := 1280

/-- Logical height of the surface: `static constexpr u32 FatalScreenHeight = 720`. -/
def FatalScreenHeight : Nat := 720

/-- Bytes per pixel: `static constexpr u32 FatalScreenBpp = 2`. -/
def FatalScreenBpp : Nat := 2

/-- Row stride in bytes, `(FatalScreenWidth * FatalScreenBpp + 63) & ~63`; the mask `~63`
is `0xFFFFFFC0` as a `u32`. -/
def FatalScreenWidthAlignedBytes : Nat :=
  u32 (FatalScreenWidth * FatalScreenBpp + 63) &&& 0xFFFFFFC0

/-- Row stride in elements, `FatalScreenWidthAlignedBytes / FatalScreenBpp`. -/
def FatalScreenWidthAligned : Nat := FatalScreenWidthAlignedBytes / FatalScreenBpp

/-! ## The tiled-surface addressor (source lines 33-43) -/

/-- The sum added to `tmp_pos` on source line 40.  Each term is bounded whatever the
arguments are (the sum is at most 1022), so no reduction modulo `2 ^ 32` applies inside. -/
def microOffset (x y : Nat) : Nat :=
  ((y % 16) / 8) * 512 + ((x % 32) / 16) * 256 + ((y % 8) / 2) * 64 + ((x % 16) / 8) * 32
    + (y % 2) * 16 + (x % 8) * 2

/-- The function `u32 GetPixelOffset(uint32_t x, uint32_t y)`, in 32-bit unsigned
arithmetic.  The arguments are `u32` values. -/
def GetPixelOffset (x y : Nat) : Nat :=
  let tmp_pos :=
    u32 (u32 ((y &&& 127) / 16 + u32 (x / 32 * 8))
      + u32 ((y / 16 / 8) * ((FatalScreenWidthAligned / 2) / 16 * 8)))
  let tmp_pos := u32 (tmp_pos * (16 * 16 * 4))
  let tmp_pos := u32 (tmp_pos + microOffset x y)
  tmp_pos / 2

/-- The value `tmp_pos` holds just before the final division of `GetPixelOffset`, computed
in unbounded arithmetic (no reduction modulo `2 ^ 32` anywhere).  Every intermediate value
of the computation is a sub-sum of this total, so the total being below `2 ^ 32` means no
step of the 32-bit computation wraps. -/
def tmpPosUnbounded (x y : Nat) : Nat :=
  ((y &&& 127) / 16 + x / 32 * 8 + (y / 16 / 8) * ((FatalScreenWidthAligned / 2) / 16 * 8))
    * (16 * 16 * 4) + microOffset x y

/-- Element count of the surface as declared by its geometry: aligned stride in bytes times
the logical height, divided by the element size (2560 * 720 / 2 = 921600). -/
def declaredTotalElements : Nat :=
  FatalScreenWidthAlignedBytes * FatalScreenHeight / FatalScreenBpp

/-- Element count of the surface with its height padded to whole 128-row bands:
1280 elements per row times 768 rows. -/
def paddedTotalElements : Nat := FatalScreenWidthAligned * 768

/-- The pixel that `GetPixelOffset` maps to the element index `k`: the inverse of the
addressor on the padded surface, obtained by reading the fields of `k` back. -/
def pixelOfOffset (k : Nat) : Nat × Nat :=
  let block := k / 512
  let m := k % 512
  (32 * (block % 320 / 8) + 16 * (m / 128 % 2) + 8 * (m / 16 % 2) + m % 8,
   128 * (block / 320) + 16 * (block % 320 % 8) + 8 * (m / 256 % 2) + 2 * (m / 32 % 4) + m / 8 % 2)

/-! ## Calls into the display service and the environment -/

/-- The two named outputs the task opens with `viOpenDisplay`: `"Internal"` and
`"External"`. -/
inductive DisplayName where
  | Internal
  | External
  deriving DecidableEq, Repr

/-- The display handles (`ViDisplay`) of the task: the local `display` of
`SetupDisplayInternal` or `SetupDisplayExternal`, opened by name, and the member
`this->display`, opened by `viOpenDefaultDisplay`. -/
inductive Display where
  | ofName (name : DisplayName)
  | thisDisplay
  deriving DecidableEq, Repr

/-- The observable actions of the task, recorded in program order.  `store32 addr val` is the
volatile 32-bit store `*(volatile u32 *)(addr) = val`.  `viSetLayerPosition x y` carries the
integer coordinates as computed before the conversion to `float`.  `viSetDisplayPowerState d`
is the call with `ViPowerState_On` and `viSetDisplayAlpha d` the call with `1.0f`, the only
arguments the source passes.  The constructors `viExit`,
`viCloseLayer` and `nwindowClose` are the release calls of the display service that pair with
`viInitialize`, `viCreateLayer` and `nwindowCreateFromLayer`; the source file never issues
them. -/
inductive Call where
  | eventWait
  | viInitialize
  | viExit
  | viSetContentVisibility (visible : Bool)
  | viOpenDisplay (name : DisplayName)
  | viCloseDisplay (d : Display)
  | viSetDisplayPowerState (d : Display)
  | viSetDisplayAlpha (d : Display)
  | viOpenDefaultDisplay
  | viGetDisplayLogicalResolution
  | viSetDisplayMagnification (x y width height : Nat)
  | viCreateLayer
  | viCloseLayer
  | viSetLayerSize (width height : Nat)
  | viGetDisplayMaximumZ
  | viSetLayerZ (z : Nat)
  | viSetLayerPosition (x y : Nat)
  | nwindowCreateFromLayer
  | nwindowClose
  | framebufferCreate (width height : Nat)
  | framebufferBegin
  | framebufferEnd
  | store32 (addr val : Nat)
  | ConfigureFontFramebuffer
  | SetFontColor (color : Nat)
  | SetPosition (x y : Nat)
  | PrintFormatLine
  | AddSpacingLines
  deriving DecidableEq, Repr

/-- The logo asset of `ams_logo.hpp`, which is not part of the source file and is taken as a
parameter: its dimensions and its pixel array (`AMS_LOGO_BIN i` is element `i`, a 16-bit
value like the elements of the destination buffer). -/
structure Logo where
  AMS_LOGO_WIDTH : Nat
  AMS_LOGO_HEIGHT : Nat
  AMS_LOGO_BIN : Nat → Nat

/-- Everything the task receives from outside the source file: the status code (`Result`, a
`u32`) returned at each call site of the display service, the values the service writes
through out-parameters, the dequeued buffer, and the constants of headers that are not part
of the source file.  Each call site runs at most once per run of the task, so one status
code per call site describes a run completely. -/
structure Env where
  viInitialize : Nat
  viOpenDisplay : DisplayName → Nat
  viSetDisplayPowerState : Nat
  viSetDisplayAlpha : DisplayName → Nat
  viOpenDefaultDisplay : Nat
  viGetDisplayLogicalResolution : Nat
  /-- Out-parameter `display_width` of `viGetDisplayLogicalResolution`, a `u32`. -/
  display_width : Nat
  /-- Out-parameter `display_height` of `viGetDisplayLogicalResolution`, a `u32`. -/
  display_height : Nat
  viSetDisplayMagnification : Nat
  viCreateLayer : Nat
  viSetLayerSize : Nat
  viGetDisplayMaximumZ : Nat
  /-- Out-parameter `layer_z` of `viGetDisplayMaximumZ`. -/
  layer_z : Nat
  viSetLayerZ : Nat
  viSetLayerPosition : Nat
  nwindowCreateFromLayer : Nat
  framebufferCreate : Nat
  /-- Result of `framebufferBegin`: `none` is the null pointer, `some mem` a buffer whose
  element `i` (a `u16`) initially holds `mem i`. -/
  framebufferBegin : Option (Nat → Nat)
  /-- The field `fb.fb_size`: size of the buffer in bytes. -/
  fb_size : Nat
  /-- The constant `FatalResult_NullGfxBuffer` of a header outside the source file. -/
  FatalResult_NullGfxBuffer : Nat
  logo : Logo
  /-- Effect on the buffer of the `FontManager` calls, which are outside the source file. -/
  fontDraw : (Nat → Nat) → (Nat → Nat)

/-- Modelled from the spec: the macro `R_FAILED` of the platform library is not part of the
source file; a status code is a failure exactly when it is not `0`, the success code. -/
abbrev R_FAILED (rc : Nat) : Prop := rc ≠ 0

/-- Modelled from the spec: the macro `R_SUCCEEDED` of the platform library is not part of
the source file; a status code is a success exactly when it is `0`. -/
abbrev R_SUCCEEDED (rc : Nat) : Prop := rc = 0

/-! ## Sequencing of traced computations -/

/-- Return `rc` with nothing further recorded. -/
def ret (rc : Nat) : Nat × List Call := (rc, [])

/-- Record the call `c`, then continue with `k`. -/
def emit (c : Call) (k : Nat × List Call) : Nat × List Call := (k.1, c :: k.2)

/-- Run `r`, then continue with `k` applied to the status `r` returned. -/
def andThen (r : Nat × List Call) (k : Nat → Nat × List Call) : Nat × List Call :=
  ((k r.1).1, r.2 ++ (k r.1).2)

/-- The guard `ON_SCOPE_EXIT { c }`: the call `c` is issued when `body`, the rest of the
enclosing scope, is left, whichever `return` leaves it. -/
def onScopeExit (c : Call) (body : Nat × List Call) : Nat × List Call :=
  (body.1, body.2 ++ [c])

/-! ## Display setup (source lines 45-171) -/

/-- The method `ShowFatalTask::SetupDisplayInternal` (source lines 45-70). -/
def SetupDisplayInternal (env : Env) : Nat × List Call :=
  emit (.viOpenDisplay .Internal) <|
    let rc := env.viOpenDisplay .Internal
    if R_FAILED rc then
      if rc = 0xE72 then ret 0 else ret rc
    else
      onScopeExit (.viCloseDisplay (.ofName .Internal)) <|
        emit (.viSetDisplayPowerState (.ofName .Internal)) <|
          let rc := env.viSetDisplayPowerState
          if R_FAILED rc then ret rc
          else
            emit (.viSetDisplayAlpha (.ofName .Internal)) <|
              let rc := env.viSetDisplayAlpha .Internal
              if R_FAILED rc then ret rc else ret rc

/-- The method `ShowFatalTask::SetupDisplayExternal` (source lines 72-92). -/
def SetupDisplayExternal (env : Env) : Nat × List Call :=
  emit (.viOpenDisplay .External) <|
    let rc := env.viOpenDisplay .External
    if R_FAILED rc then
      if rc = 0xE72 then ret 0 else ret rc
    else
      onScopeExit (.viCloseDisplay (.ofName .External)) <|
        emit (.viSetDisplayAlpha (.ofName .External)) <|
          let rc := env.viSetDisplayAlpha .External
          if R_FAILED rc then ret rc else ret rc

/-- The constant `layer_width = ((raw_width) * 3) / 2` of source line 136. -/
def layer_width : Nat := u32 (FatalScreenWidth * 3) / 2

/-- The constant `layer_height = ((raw_height) * 3) / 2` of source line 137. -/
def layer_height : Nat := u32 (FatalScreenHeight * 3) / 2

/-- The integer `(display_width - layer_width) / 2` of source line 139, in `u32`
arithmetic, before the conversion to `float`. -/
def layer_x (display_width : Nat) : Nat := u32sub display_width layer_width / 2

/-- The integer `(display_height - layer_height) / 2` of source line 140, in `u32`
arithmetic, before the conversion to `float`. -/
def layer_y (display_height : Nat) : Nat := u32sub display_height layer_height / 2

/-- Source lines 155-170 of `PrepareScreenForDrawing`: position the layer, create the
window and the framebuffer. -/
def positionAndCreate (env : Env) : Nat × List Call :=
  emit (.viSetLayerPosition (layer_x env.display_width) (layer_y env.display_height)) <|
    let rc := env.viSetLayerPosition
    if R_FAILED rc then ret rc
    else
      emit .nwindowCreateFromLayer <|
        let rc := env.nwindowCreateFromLayer
        if R_FAILED rc then ret rc
        else
          emit (.framebufferCreate FatalScreenWidth FatalScreenHeight) <|
            let rc := env.framebufferCreate
            if R_FAILED rc then ret rc else ret rc

/-- Source lines 143-170 of `PrepareScreenForDrawing`: size the layer, raise it to the
maximum depth, then `positionAndCreate`. -/
def setupLayer (env : Env) : Nat × List Call :=
  emit (.viSetLayerSize layer_width layer_height) <|
    let rc := env.viSetLayerSize
    if R_FAILED rc then ret rc
    else
      emit .viGetDisplayMaximumZ <|
        let rc := env.viGetDisplayMaximumZ
        if R_SUCCEEDED rc then
          emit (.viSetLayerZ env.layer_z) <|
            let rc := env.viSetLayerZ
            if R_FAILED rc then ret rc else positionAndCreate env
        else positionAndCreate env

/-- The method `ShowFatalTask::PrepareScreenForDrawing` (source lines 94-171). -/
def PrepareScreenForDrawing (env : Env) : Nat × List Call :=
  emit .viInitialize <|
    let rc := env.viInitialize
    if R_FAILED rc then ret rc
    else
      emit (.viSetContentVisibility false) <|
        andThen (SetupDisplayInternal env) fun rc =>
          if R_FAILED rc then ret rc
          else
            andThen (SetupDisplayExternal env) fun rc =>
              if R_FAILED rc then ret rc
              else
                emit .viOpenDefaultDisplay <|
                  let rc := env.viOpenDefaultDisplay
                  if R_FAILED rc then ret rc
                  else
                    emit .viGetDisplayLogicalResolution <|
                      let rc := env.viGetDisplayLogicalResolution
                      if R_FAILED rc then ret rc
                      else
                        emit (.viSetDisplayMagnification 0 0 env.display_width
                            env.display_height) <|
                          let rc := env.viSetDisplayMagnification
                          if R_FAILED rc then ret rc
                          else
                            emit .viCreateLayer <|
                              let rc := env.viCreateLayer
                              if R_FAILED rc then ret rc else setupLayer env

/-! ## Drawing (source lines 173-222) -/

/-- The assignment `tiled_buf[i] = v`. -/
def store (tiled_buf : Nat → Nat) (i v : Nat) : Nat → Nat :=
  fun j => if j = i then v else tiled_buf j

/-- The background loop of source lines 192-194: `tiled_buf[i] = 0x39C9` for every
`i < fb_size / sizeof(*tiled_buf)`, in increasing order of `i`. -/
def drawBackground (fb_size : Nat) (tiled_buf : Nat → Nat) : Nat → Nat :=
  (List.range (fb_size / 2)).foldl (fun buf i => store buf i 0x39C9) tiled_buf

/-- The first argument `FatalScreenWidth - AMS_LOGO_WIDTH - 32 + x` of the call on source
line 199, converted to the parameter type `uint32_t`. -/
def logoX (logo : Logo) (x : Nat) : Nat :=
  u32 (u32sub (u32sub FatalScreenWidth logo.AMS_LOGO_WIDTH) 32 + x)

/-- The second argument `FatalScreenHeight - AMS_LOGO_HEIGHT - 32 + y` of the call on
source line 199, converted to the parameter type `uint32_t`. -/
def logoY (logo : Logo) (y : Nat) : Nat :=
  u32 (u32sub (u32sub FatalScreenHeight logo.AMS_LOGO_HEIGHT) 32 + y)

/-- The logo loops of source lines 197-201: rows `y` outermost, columns `x` innermost, both
in increasing order.  The index `y * AMS_LOGO_WIDTH + x` is `size_t` arithmetic, taken
without wrap. -/
def drawLogo (logo : Logo) (tiled_buf : Nat → Nat) : Nat → Nat :=
  (List.range logo.AMS_LOGO_HEIGHT).foldl (fun buf y =>
    (List.range logo.AMS_LOGO_WIDTH).foldl (fun buf x =>
      store buf (GetPixelOffset (logoX logo x) (logoY logo y))
        (logo.AMS_LOGO_BIN (y * logo.AMS_LOGO_WIDTH + x))) buf) tiled_buf

/-- What a run of the task leaves behind: the status it returns, the calls it issued, and
the contents of the buffer when one was drawn and enqueued. -/
structure Outcome where
  rc : Nat
  trace : List Call
  buf : Option (Nat → Nat)

/-- The method `ShowFatalTask::ShowFatal` (source lines 173-215). -/
def ShowFatal (env : Env) : Outcome :=
  let prepared := PrepareScreenForDrawing env
  let rc := prepared.1
  if R_FAILED rc then
    { rc := rc, trace := prepared.2 ++ [.store32 0xCAFEBABE rc], buf := none }
  else
    match env.framebufferBegin with
    | none =>
      { rc := env.FatalResult_NullGfxBuffer, trace := prepared.2 ++ [.framebufferBegin],
        buf := none }
    | some tiled_buf =>
      { rc := rc,
        trace := prepared.2 ++ [.framebufferBegin, .ConfigureFontFramebuffer,
          .SetFontColor 0xFFFF, .SetPosition 32 64, .PrintFormatLine, .AddSpacingLines,
          .PrintFormatLine, .framebufferEnd],
        buf := some (env.fontDraw (drawLogo env.logo (drawBackground env.fb_size tiled_buf))) }

/-- The method `ShowFatalTask::Run` (source lines 217-222). -/
def Run (env : Env) : Outcome :=
  let shown := ShowFatal env
  { rc := shown.rc, trace := .eventWait :: shown.trace, buf := shown.buf }

/-! ## Resources held after a sequence of calls -/

/-- The resources of the display service that the setup acquires. -/
inductive Resource where
  | viSession
  | display (d : Display)
  | layer
  | window
  deriving DecidableEq, Repr

/-- The resource a call acquires when it completes with success, under the status codes of
`env`. -/
def acquiredBy (env : Env) : Call → Option Resource
  | .viInitialize => if env.viInitialize = 0 then some .viSession else none
  | .viOpenDisplay name =>
    if env.viOpenDisplay name = 0 then some (.display (.ofName name)) else none
  | .viOpenDefaultDisplay =>
    if env.viOpenDefaultDisplay = 0 then some (.display .thisDisplay) else none
  | .viCreateLayer => if env.viCreateLayer = 0 then some .layer else none
  | .nwindowCreateFromLayer => if env.nwindowCreateFromLayer = 0 then some .window else none
  | _ => none

/-- The resource a call releases. -/
def releasedBy : Call → Option Resource
  | .viExit => some .viSession
  | .viCloseDisplay d => some (.display d)
  | .viCloseLayer => some .layer
  | .nwindowClose => some .window
  | _ => none

/-- One call's effect on the list of held resources. -/
def holdStep (env : Env) (held : List Resource) (c : Call) : List Resource :=
  match releasedBy c with
  | some r => held.erase r
  | none =>
    match acquiredBy env c with
    | some r => r :: held
    | none => held

/-- The resources still held after the calls of `trace`, starting with none held. -/
def heldAfter (env : Env) (trace : List Call) : List Resource :=
  trace.foldl (holdStep env) []

/-! ## Predicates on runs -/

/-- Every call a traced computation issues satisfies `P`. -/
def AllCalls (P : Call → Prop) (r : Nat × List Call) : Prop := ∀ c ∈ r.2, P c

/-- The calls `PrepareScreenForDrawing` issues on one path or another. -/
def setupCalls (env : Env) : List Call :=
  [.viInitialize, .viSetContentVisibility false,
   .viOpenDisplay .Internal, .viSetDisplayPowerState (.ofName .Internal),
   .viSetDisplayAlpha (.ofName .Internal), .viCloseDisplay (.ofName .Internal),
   .viOpenDisplay .External, .viSetDisplayAlpha (.ofName .External),
   .viCloseDisplay (.ofName .External),
   .viOpenDefaultDisplay, .viGetDisplayLogicalResolution,
   .viSetDisplayMagnification 0 0 env.display_width env.display_height,
   .viCreateLayer, .viSetLayerSize layer_width layer_height, .viGetDisplayMaximumZ,
   .viSetLayerZ env.layer_z,
   .viSetLayerPosition (layer_x env.display_width) (layer_y env.display_height),
   .nwindowCreateFromLayer, .framebufferCreate FatalScreenWidth FatalScreenHeight]

/-- No display opened by name is among the held resources. -/
def NoNamedHeld (held : List Resource) : Prop :=
  ∀ name, Resource.display (.ofName name) ∉ held

/-- A traced computation leaves no display opened by name held, when none was held before. -/
def Balanced (env : Env) (r : Nat × List Call) : Prop :=
  ∀ held, NoNamedHeld held → NoNamedHeld (r.2.foldl (holdStep env) held)

/-- The steps of `PrepareScreenForDrawing` outside the two scoped display helpers and the
depth raise all return success. -/
def CoreStepsSucceed (env : Env) : Prop :=
  env.viInitialize = 0 ∧ env.viOpenDefaultDisplay = 0 ∧ env.viGetDisplayLogicalResolution = 0
    ∧ env.viSetDisplayMagnification = 0 ∧ env.viCreateLayer = 0 ∧ env.viSetLayerSize = 0
    ∧ env.viSetLayerPosition = 0 ∧ env.nwindowCreateFromLayer = 0 ∧ env.framebufferCreate = 0

/-- Every call of `SetupDisplayInternal` returns success. -/
def InternalSucceeds (env : Env) : Prop :=
  env.viOpenDisplay .Internal = 0 ∧ env.viSetDisplayPowerState = 0
    ∧ env.viSetDisplayAlpha .Internal = 0

/-- Every call of `SetupDisplayExternal` returns success. -/
def ExternalSucceeds (env : Env) : Prop :=
  env.viOpenDisplay .External = 0 ∧ env.viSetDisplayAlpha .External = 0

/-- Both calls of the depth raise return success. -/
def DepthRaiseSucceeds (env : Env) : Prop :=
  env.viGetDisplayMaximumZ = 0 ∧ env.viSetLayerZ = 0

/-- The calls of `PrepareScreenForDrawing` from `viInitialize` through `viSetLayerSize`
when both named displays open and every step up to there succeeds. -/
def callsThroughLayerSize (env : Env) : List Call :=
  [.viInitialize, .viSetContentVisibility false,
   .viOpenDisplay .Internal, .viSetDisplayPowerState (.ofName .Internal),
   .viSetDisplayAlpha (.ofName .Internal), .viCloseDisplay (.ofName .Internal),
   .viOpenDisplay .External, .viSetDisplayAlpha (.ofName .External),
   .viCloseDisplay (.ofName .External),
   .viOpenDefaultDisplay, .viGetDisplayLogicalResolution,
   .viSetDisplayMagnification 0 0 env.display_width env.display_height,
   .viCreateLayer, .viSetLayerSize layer_width layer_height]

/-- The calls of `PrepareScreenForDrawing` from `viSetLayerPosition` to its end when each
succeeds. -/
def callsFromLayerPosition (env : Env) : List Call :=
  [.viSetLayerPosition (layer_x env.display_width) (layer_y env.display_height),
   .nwindowCreateFromLayer, .framebufferCreate FatalScreenWidth FatalScreenHeight]

/-! ## Sample environments -/

/-- An environment in which every call succeeds: a 1920 x 1080 display, a zeroed buffer of
the padded surface size, and a 2 x 2 logo. -/
def okEnv : Env where
  viInitialize := 0
  viOpenDisplay := fun _ => 0
  viSetDisplayPowerState := 0
  viSetDisplayAlpha := fun _ => 0
  viOpenDefaultDisplay := 0
  viGetDisplayLogicalResolution := 0
  display_width := 1920
  display_height := 1080
  viSetDisplayMagnification := 0
  viCreateLayer := 0
  viSetLayerSize := 0
  viGetDisplayMaximumZ := 0
  layer_z := 255
  viSetLayerZ := 0
  viSetLayerPosition := 0
  nwindowCreateFromLayer := 0
  framebufferCreate := 0
  framebufferBegin := some (fun _ => 0)
  fb_size := 1966080
  FatalResult_NullGfxBuffer := 0x4A3
  logo := { AMS_LOGO_WIDTH := 2, AMS_LOGO_HEIGHT := 2, AMS_LOGO_BIN := fun i => 100 + i }
  fontDraw := fun buf => buf

/-- Every call succeeds except `framebufferCreate`, which fails with `7`. -/
def framebufferCreateFails : Env := { okEnv with framebufferCreate := 7 }

/-- Every call succeeds except `viSetLayerZ`, which fails with `5`. -/
def setLayerZFails : Env := { okEnv with viSetLayerZ := 5 }

/-- Every call succeeds except `viGetDisplayMaximumZ`, which fails with `9`. -/
def getMaximumZFails : Env := { okEnv with viGetDisplayMaximumZ := 9 }

/-- The internal display opens, the external display fails to open with `0x1234`. -/
def externalOpenFails : Env :=
  { okEnv with viOpenDisplay := fun name => if name = .External then 0x1234 else 0 }

/-- The internal display is absent (`0xE72`); every other call succeeds. -/
def internalAbsent : Env :=
  { okEnv with viOpenDisplay := fun name => if name = .Internal then 0xE72 else 0 }

/-- Every call succeeds and `framebufferBegin` returns the null pointer. -/
def nullBuffer : Env := { okEnv with framebufferBegin := none }

/-- Every call succeeds on a display that reports 1280 x 720. -/
def display720 : Env := { okEnv with display_width := 1280, display_height := 720 }

/-! ## Facts about the addressor -/

theorem FatalScreenWidthAlignedBytes_eq : FatalScreenWidthAlignedBytes = 2560 := by rfl

theorem FatalScreenWidthAligned_eq : FatalScreenWidthAligned = 1280 := by rfl

theorem declaredTotalElements_eq : declaredTotalElements = 921600 := by rfl

theorem paddedTotalElements_eq : paddedTotalElements = 983040 := by rfl

theorem and_127_eq_mod (y : Nat) : y &&& 127 = y % 128 :=
  Nat.and_pow_two_sub_one_eq_mod y 7

/-- The 32-bit computation on abstract bit fields: with the fields in range nothing wraps
and the halved total is the packed index. -/
theorem packed_u32 (a p b m1 m2 m3 m4 m5 m6 : Nat) (ha : a < 40) (hp : p < 8) (hb : b < 6)
    (h1 : m1 < 2) (h2 : m2 < 2) (h3 : m3 < 4) (h4 : m4 < 2) (h5 : m5 < 2) (h6 : m6 < 8) :
    (((p + a * 8 % 2 ^ 32) % 2 ^ 32 + b * (1280 / 2 / 16 * 8) % 2 ^ 32) % 2 ^ 32
        * (16 * 16 * 4) % 2 ^ 32
      + (m1 * 512 + m2 * 256 + m3 * 64 + m4 * 32 + m5 * 16 + m6 * 2)) % 2 ^ 32 / 2
    = (b * 320 + a * 8 + p) * 512 + (m1 * 256 + m2 * 128 + m3 * 32 + m4 * 16 + m5 * 8 + m6) := by
  omega

/-- The unbounded total on abstract bit fields. -/
theorem packed_unbounded (a p b m1 m2 m3 m4 m5 m6 : Nat) :
    (p + a * 8 + b * (1280 / 2 / 16 * 8)) * (16 * 16 * 4)
      + (m1 * 512 + m2 * 256 + m3 * 64 + m4 * 32 + m5 * 16 + m6 * 2)
    = 2 * ((b * 320 + a * 8 + p) * 512
        + (m1 * 256 + m2 * 128 + m3 * 32 + m4 * 16 + m5 * 8 + m6)) := by
  omega

/-- Closed form of the addressor on the padded surface: block index times 512 plus the
position inside the block. -/
theorem GetPixelOffset_closed (x y : Nat) (hx : x < 1280) (hy : y < 768) :
    GetPixelOffset x y = (y / 128 * 320 + x / 32 * 8 + y % 128 / 16) * 512
      + (y % 16 / 8 * 256 + x % 32 / 16 * 128 + y % 8 / 2 * 32 + x % 16 / 8 * 16
          + y % 2 * 8 + x % 8) := by
  have hb : y / 16 / 8 = y / 128 := by omega
  simp only [GetPixelOffset, microOffset, u32, FatalScreenWidthAligned_eq, and_127_eq_mod, hb]
  exact packed_u32 (x / 32) (y % 128 / 16) (y / 128) (y % 16 / 8) (x % 32 / 16) (y % 8 / 2)
    (x % 16 / 8) (y % 2) (x % 8) (by omega) (by omega) (by omega) (by omega) (by omega)
    (by omega) (by omega) (by omega) (by omega)

/-- The unbounded total is twice the closed form. -/
theorem tmpPosUnbounded_closed (x y : Nat) :
    tmpPosUnbounded x y = 2 * ((y / 128 * 320 + x / 32 * 8 + y % 128 / 16) * 512
      + (y % 16 / 8 * 256 + x % 32 / 16 * 128 + y % 8 / 2 * 32 + x % 16 / 8 * 16
          + y % 2 * 8 + x % 8)) := by
  have hb : y / 16 / 8 = y / 128 := by omega
  simp only [tmpPosUnbounded, microOffset, FatalScreenWidthAligned_eq, and_127_eq_mod, hb]
  exact packed_unbounded (x / 32) (y % 128 / 16) (y / 128) (y % 16 / 8) (x % 32 / 16)
    (y % 8 / 2) (x % 16 / 8) (y % 2) (x % 8)

theorem x_fields (x : Nat) :
    x = 32 * (x / 32) + 16 * (x % 32 / 16) + 8 * (x % 16 / 8) + x % 8 := by
  omega

theorem y_fields (y : Nat) :
    y = 128 * (y / 128) + 16 * (y % 128 / 16) + 8 * (y % 16 / 8) + 2 * (y % 8 / 2) + y % 2 := by
  omega

/-- Two packed indices with in-range fields are equal only if all fields agree. -/
theorem packed_inj (a p b m1 m2 m3 m4 m5 m6 a' p' b' n1 n2 n3 n4 n5 n6 : Nat)
    (ha : a < 40) (hp : p < 8)
    (h1 : m1 < 2) (h2 : m2 < 2) (h3 : m3 < 4) (h4 : m4 < 2) (h5 : m5 < 2) (h6 : m6 < 8)
    (ha' : a' < 40) (hp' : p' < 8)
    (k1 : n1 < 2) (k2 : n2 < 2) (k3 : n3 < 4) (k4 : n4 < 2) (k5 : n5 < 2) (k6 : n6 < 8)
    (h : (b * 320 + a * 8 + p) * 512 + (m1 * 256 + m2 * 128 + m3 * 32 + m4 * 16 + m5 * 8 + m6)
       = (b' * 320 + a' * 8 + p') * 512
          + (n1 * 256 + n2 * 128 + n3 * 32 + n4 * 16 + n5 * 8 + n6)) :
    a = a' ∧ p = p' ∧ b = b' ∧ m1 = n1 ∧ m2 = n2 ∧ m3 = n3 ∧ m4 = n4 ∧ m5 = n5 ∧ m6 = n6 := by
  omega

/-- Injectivity of the addressor on the padded surface `1280 x 768`. -/
theorem GetPixelOffset_inj_padded (x1 y1 x2 y2 : Nat) (hx1 : x1 < 1280) (hy1 : y1 < 768)
    (hx2 : x2 < 1280) (hy2 : y2 < 768) (h : GetPixelOffset x1 y1 = GetPixelOffset x2 y2) :
    x1 = x2 ∧ y1 = y2 := by
  have e := packed_inj (x1 / 32) (y1 % 128 / 16) (y1 / 128) (y1 % 16 / 8) (x1 % 32 / 16)
    (y1 % 8 / 2) (x1 % 16 / 8) (y1 % 2) (x1 % 8) (x2 / 32) (y2 % 128 / 16) (y2 / 128)
    (y2 % 16 / 8) (x2 % 32 / 16) (y2 % 8 / 2) (x2 % 16 / 8) (y2 % 2) (x2 % 8)
    (by omega) (by omega) (by omega) (by omega) (by omega) (by omega) (by omega) (by omega)
    (by omega) (by omega) (by omega) (by omega) (by omega) (by omega) (by omega) (by omega)
    (by rw [← GetPixelOffset_closed x1 y1 hx1 hy1, ← GetPixelOffset_closed x2 y2 hx2 hy2]
        exact h)
  obtain ⟨e1, e2, e3, e4, e5, e6, e7, e8, e9⟩ := e
  constructor
  · calc x1 = 32 * (x1 / 32) + 16 * (x1 % 32 / 16) + 8 * (x1 % 16 / 8) + x1 % 8 := x_fields x1
      _ = 32 * (x2 / 32) + 16 * (x2 % 32 / 16) + 8 * (x2 % 16 / 8) + x2 % 8 := by
          rw [e1, e5, e7, e9]
      _ = x2 := (x_fields x2).symm
  · calc y1 = 128 * (y1 / 128) + 16 * (y1 % 128 / 16) + 8 * (y1 % 16 / 8) + 2 * (y1 % 8 / 2)
            + y1 % 2 := y_fields y1
      _ = 128 * (y2 / 128) + 16 * (y2 % 128 / 16) + 8 * (y2 % 16 / 8) + 2 * (y2 % 8 / 2)
            + y2 % 2 := by rw [e2, e3, e4, e6, e8]
      _ = y2 := (y_fields y2).symm

/-- Every offset of the padded surface is below `983040`. -/
theorem GetPixelOffset_lt_padded (x y : Nat) (hx : x < 1280) (hy : y < 768) :
    GetPixelOffset x y < 983040 := by
  have hc := GetPixelOffset_closed x y hx hy
  have b1 : y / 128 < 6 := by omega
  have b2 : x / 32 < 40 := by omega
  have b3 : y % 128 / 16 < 8 := by omega
  have b4 : y % 16 / 8 < 2 := by omega
  have b5 : x % 32 / 16 < 2 := by omega
  have b6 : y % 8 / 2 < 4 := by omega
  have b7 : x % 16 / 8 < 2 := by omega
  have b8 : y % 2 < 2 := by omega
  have b9 : x % 8 < 8 := by omega
  generalize y / 128 = b at hc b1
  generalize x / 32 = a at hc b2
  generalize y % 128 / 16 = p at hc b3
  generalize y % 16 / 8 = m1 at hc b4
  generalize x % 32 / 16 = m2 at hc b5
  generalize y % 8 / 2 = m3 at hc b6
  generalize x % 16 / 8 = m4 at hc b7
  generalize y % 2 = m5 at hc b8
  generalize x % 8 = m6 at hc b9
  omega

/-- Reading the fields of a column back from its composition. -/
theorem x_fields_of (a m2 m4 m6 : Nat) (h2 : m2 < 2) (h4 : m4 < 2) (h6 : m6 < 8) :
    (32 * a + 16 * m2 + 8 * m4 + m6) / 32 = a ∧ (32 * a + 16 * m2 + 8 * m4 + m6) % 32 / 16 = m2
      ∧ (32 * a + 16 * m2 + 8 * m4 + m6) % 16 / 8 = m4
      ∧ (32 * a + 16 * m2 + 8 * m4 + m6) % 8 = m6 := by
  omega

/-- Reading the fields of a row back from its composition. -/
theorem y_fields_of (b p m1 m3 m5 : Nat) (hp : p < 8) (h1 : m1 < 2) (h3 : m3 < 4)
    (h5 : m5 < 2) :
    (128 * b + 16 * p + 8 * m1 + 2 * m3 + m5) / 128 = b
      ∧ (128 * b + 16 * p + 8 * m1 + 2 * m3 + m5) % 128 / 16 = p
      ∧ (128 * b + 16 * p + 8 * m1 + 2 * m3 + m5) % 16 / 8 = m1
      ∧ (128 * b + 16 * p + 8 * m1 + 2 * m3 + m5) % 8 / 2 = m3
      ∧ (128 * b + 16 * p + 8 * m1 + 2 * m3 + m5) % 2 = m5 := by
  omega

/-- An index is the packing of its own fields. -/
theorem offset_fields (k : Nat) :
    k = (k / 512 / 320 * 320 + k / 512 % 320 / 8 * 8 + k / 512 % 320 % 8) * 512
      + (k % 512 / 256 % 2 * 256 + k % 512 / 128 % 2 * 128 + k % 512 / 32 % 4 * 32
          + k % 512 / 16 % 2 * 16 + k % 512 / 8 % 2 * 8 + k % 512 % 8) := by
  omega

/-- The pixel `pixelOfOffset k` lies on the padded surface and is mapped to `k`. -/
theorem GetPixelOffset_pixelOfOffset (k : Nat) (hk : k < 983040) :
    (pixelOfOffset k).1 < 1280 ∧ (pixelOfOffset k).2 < 768
      ∧ GetPixelOffset (pixelOfOffset k).1 (pixelOfOffset k).2 = k := by
  have hx : (pixelOfOffset k).1 < 1280 := by
    simp only [pixelOfOffset]
    omega
  have hy : (pixelOfOffset k).2 < 768 := by
    simp only [pixelOfOffset]
    omega
  refine ⟨hx, hy, ?_⟩
  rw [GetPixelOffset_closed _ _ hx hy]
  simp only [pixelOfOffset]
  obtain ⟨f1, f2, f3, f4⟩ := x_fields_of (k / 512 % 320 / 8) (k % 512 / 128 % 2)
    (k % 512 / 16 % 2) (k % 512 % 8) (Nat.mod_lt _ (by decide)) (Nat.mod_lt _ (by decide))
    (Nat.mod_lt _ (by decide))
  obtain ⟨g1, g2, g3, g4, g5⟩ := y_fields_of (k / 512 / 320) (k / 512 % 320 % 8)
    (k % 512 / 256 % 2) (k % 512 / 32 % 4) (k % 512 / 8 % 2) (Nat.mod_lt _ (by decide))
    (Nat.mod_lt _ (by decide)) (Nat.mod_lt _ (by decide)) (Nat.mod_lt _ (by decide))
  rw [f1, f2, f3, f4, g1, g2, g3, g4, g5]
  exact (offset_fields k).symm

/-! ## Facts about traced computations -/

theorem ret_fst (rc : Nat) : (ret rc).1 = rc := rfl

theorem ret_snd (rc : Nat) : (ret rc).2 = [] := rfl

theorem emit_fst (c : Call) (k : Nat × List Call) : (emit c k).1 = k.1 := rfl

theorem emit_snd (c : Call) (k : Nat × List Call) : (emit c k).2 = c :: k.2 := rfl

theorem andThen_fst (r : Nat × List Call) (k : Nat → Nat × List Call) :
    (andThen r k).1 = (k r.1).1 := rfl

theorem andThen_snd (r : Nat × List Call) (k : Nat → Nat × List Call) :
    (andThen r k).2 = r.2 ++ (k r.1).2 := rfl

theorem onScopeExit_fst (c : Call) (k : Nat × List Call) : (onScopeExit c k).1 = k.1 := rfl

theorem onScopeExit_snd (c : Call) (k : Nat × List Call) :
    (onScopeExit c k).2 = k.2 ++ [c] := rfl

theorem AllCalls_ret (P : Call → Prop) (rc : Nat) : AllCalls P (ret rc) := by
  intro c hc
  simp [ret] at hc

theorem AllCalls_emit (P : Call → Prop) (c : Call) (k : Nat × List Call) (hc : P c)
    (hk : AllCalls P k) : AllCalls P (emit c k) := by
  intro c' h
  rw [emit_snd, List.mem_cons] at h
  rcases h with rfl | h
  · exact hc
  · exact hk _ h

theorem AllCalls_onScopeExit (P : Call → Prop) (c : Call) (k : Nat × List Call) (hc : P c)
    (hk : AllCalls P k) : AllCalls P (onScopeExit c k) := by
  intro c' h
  rw [onScopeExit_snd, List.mem_append, List.mem_singleton] at h
  rcases h with h | rfl
  · exact hk _ h
  · exact hc

theorem AllCalls_andThen (P : Call → Prop) (r : Nat × List Call) (k : Nat → Nat × List Call)
    (hr : AllCalls P r) (hk : ∀ rc, AllCalls P (k rc)) : AllCalls P (andThen r k) := by
  intro c h
  rw [andThen_snd, List.mem_append] at h
  rcases h with h | h
  · exact hr _ h
  · exact hk _ _ h

theorem AllCalls_ite (P : Call → Prop) (c : Prop) [Decidable c] (a b : Nat × List Call)
    (ha : AllCalls P a) (hb : AllCalls P b) : AllCalls P (if c then a else b) := by
  split
  · exact ha
  · exact hb

/-- Every call `PrepareScreenForDrawing` issues is one of `setupCalls`. -/
theorem PrepareScreenForDrawing_calls (env : Env) :
    AllCalls (fun c => c ∈ setupCalls env) (PrepareScreenForDrawing env) := by
  dsimp only [PrepareScreenForDrawing, SetupDisplayInternal, SetupDisplayExternal, setupLayer,
    positionAndCreate]
  repeat' first
    | exact AllCalls_ret _ _
    | refine AllCalls_ite _ _ _ _ ?_ ?_
    | refine AllCalls_emit _ _ _ (by simp [setupCalls]) ?_
    | refine AllCalls_onScopeExit _ _ _ (by simp [setupCalls]) ?_
    | refine AllCalls_andThen _ _ _ ?_ (fun _ => ?_)

/-! ## Facts about held resources -/

theorem Balanced_ret (env : Env) (rc : Nat) : Balanced env (ret rc) := by
  intro held h
  exact h

theorem Balanced_ite (env : Env) (c : Prop) [Decidable c] (a b : Nat × List Call)
    (ha : Balanced env a) (hb : Balanced env b) : Balanced env (if c then a else b) := by
  split
  · exact ha
  · exact hb

theorem Balanced_andThen (env : Env) (r : Nat × List Call) (k : Nat → Nat × List Call)
    (hr : Balanced env r) (hk : ∀ rc, Balanced env (k rc)) : Balanced env (andThen r k) := by
  intro held h
  rw [andThen_snd, List.foldl_append]
  exact hk _ _ (hr _ h)

/-- A call that releases nothing and acquires no display opened by name keeps the balance. -/
theorem Balanced_emit (env : Env) (c : Call) (k : Nat × List Call)
    (hrel : releasedBy c = none)
    (hacq : ∀ name, acquiredBy env c ≠ some (.display (.ofName name)))
    (hk : Balanced env k) : Balanced env (emit c k) := by
  intro held h
  rw [emit_snd, List.foldl_cons]
  apply hk
  intro name
  unfold holdStep
  rw [hrel]
  cases hc : acquiredBy env c with
  | none => exact h name
  | some r =>
    intro hmem
    rcases List.mem_cons.1 hmem with e | e
    · exact hacq name (by rw [hc, e])
    · exact h name e

/-- The scope of `SetupDisplayInternal` closes what it opened. -/
theorem Balanced_SetupDisplayInternal (env : Env) : Balanced env (SetupDisplayInternal env) := by
  intro held h name
  simp only [SetupDisplayInternal, R_FAILED, ret, emit, onScopeExit]
  split_ifs with h1 h2 h3 h4 <;>
    simp_all [holdStep, releasedBy, acquiredBy, NoNamedHeld]

/-- The scope of `SetupDisplayExternal` closes what it opened. -/
theorem Balanced_SetupDisplayExternal (env : Env) : Balanced env (SetupDisplayExternal env) := by
  intro held h name
  simp only [SetupDisplayExternal, R_FAILED, ret, emit, onScopeExit]
  split_ifs with h1 h2 h3 <;>
    simp_all [holdStep, releasedBy, acquiredBy, NoNamedHeld]

/-- No display opened by name is held when `PrepareScreenForDrawing` returns. -/
theorem Balanced_PrepareScreenForDrawing (env : Env) :
    Balanced env (PrepareScreenForDrawing env) := by
  dsimp only [PrepareScreenForDrawing, setupLayer, positionAndCreate]
  repeat' first
    | exact Balanced_ret _ _
    | exact Balanced_SetupDisplayInternal _
    | exact Balanced_SetupDisplayExternal _
    | refine Balanced_ite _ _ _ _ ?_ ?_
    | refine Balanced_emit _ _ _ (by simp [releasedBy]) (by simp [acquiredBy]) ?_
    | refine Balanced_andThen _ _ _ ?_ (fun _ => ?_)

/-- A call that acquires a resource releases none. -/
theorem releasedBy_of_acquiredBy (env : Env) (c : Call) (r : Resource)
    (h : acquiredBy env c = some r) : releasedBy c = none := by
  cases c <;> simp_all [acquiredBy, releasedBy]

/-- A resource that is held, or acquired by a call of the trace, and that no call of the
trace releases, is held after the trace. -/
theorem mem_foldl_holdStep (env : Env) (r : Resource) (trace : List Call) :
    ∀ held : List Resource, (∀ c ∈ trace, releasedBy c ≠ some r) →
      (r ∈ held ∨ ∃ c ∈ trace, acquiredBy env c = some r) →
      r ∈ trace.foldl (holdStep env) held := by
  induction trace with
  | nil =>
    intro held _ h
    rcases h with h | ⟨c, hc, _⟩
    · exact h
    · cases hc
  | cons c t ih =>
    intro held hrel h
    rw [List.foldl_cons]
    apply ih _ (fun c' hc' => hrel c' (List.mem_cons_of_mem _ hc'))
    have hc := hrel c (List.mem_cons_self _ _)
    rcases h with h | ⟨c', hc', hacq⟩
    · left
      unfold holdStep
      cases hr : releasedBy c with
      | some r' =>
        have hne : r ≠ r' := fun e => hc (by rw [hr, e])
        exact (List.mem_erase_of_ne hne).2 h
      | none =>
        cases acquiredBy env c with
        | none => exact h
        | some r' => exact List.mem_cons_of_mem _ h
    · rcases List.mem_cons.1 hc' with e | e
      · left
        subst e
        unfold holdStep
        rw [releasedBy_of_acquiredBy env c' r hacq, hacq]
        exact List.mem_cons_self _ _
      · right
        exact ⟨c', e, hacq⟩

/-! ## Resources on the exits of the setup -/

/-- C3, as stated, fails: when every call succeeds except `framebufferCreate`, which fails
with `7`, `PrepareScreenForDrawing` returns the failure `7` having issued no release call
other than the two `viCloseDisplay` of the displays opened by name, so the vi session, the
default display, the layer and the window are all still held when it returns. -/
theorem PrepareScreenForDrawing_failure_keeps_resources :
    PrepareScreenForDrawing framebufferCreateFails
        = (7, callsThroughLayerSize framebufferCreateFails
            ++ [.viGetDisplayMaximumZ, .viSetLayerZ 255]
            ++ callsFromLayerPosition framebufferCreateFails)
      ∧ heldAfter framebufferCreateFails (PrepareScreenForDrawing framebufferCreateFails).2
        = [.window, .layer, .display .thisDisplay, .viSession] := by
  decide

/-- C3, amended: on every exit of `PrepareScreenForDrawing`, failing or not, no display
opened by name (internal, external) is still held, each having been closed by its
`viCloseDisplay`; these are the only release calls issued; and every other resource that a
completed call acquired (vi session, default display, layer, window) is still held when the
function returns. -/
theorem PrepareScreenForDrawing_held (env : Env) :
    (∀ name, Resource.display (.ofName name)
        ∉ heldAfter env (PrepareScreenForDrawing env).2)
      ∧ (∀ c ∈ (PrepareScreenForDrawing env).2,
          releasedBy c = none ∨ ∃ name, c = .viCloseDisplay (.ofName name))
      ∧ (∀ r c, c ∈ (PrepareScreenForDrawing env).2 → acquiredBy env c = some r →
          (∀ name, r ≠ .display (.ofName name)) →
          r ∈ heldAfter env (PrepareScreenForDrawing env).2) := by
  have hcalls := PrepareScreenForDrawing_calls env
  refine ⟨?_, ?_, ?_⟩
  · exact Balanced_PrepareScreenForDrawing env [] (fun _ h => by cases h)
  · intro c hc
    have hmem := hcalls c hc
    simp only [setupCalls, List.mem_cons, List.mem_singleton, List.not_mem_nil, or_false]
      at hmem
    rcases hmem with e | e | e | e | e | e | e | e | e | e | e | e | e | e | e | e | e | e | e
      <;> subst e <;> simp [releasedBy]
  · intro r c hc hacq hr
    apply mem_foldl_holdStep env r _ []
    · intro c' hc' hrel
      have hmem := hcalls c' hc'
      simp only [setupCalls, List.mem_cons, List.mem_singleton, List.not_mem_nil, or_false]
        at hmem
      rcases hmem with e | e | e | e | e | e | e | e | e | e | e | e | e | e | e | e | e | e | e
        <;> subst e <;> simp [releasedBy] at hrel
      · exact hr .Internal hrel.symm
      · exact hr .External hrel.symm
    · exact Or.inr ⟨c, hc, hacq⟩

/-- The statement `PrepareScreenForDrawing_held` at the run in which `framebufferCreate`
fails: the vi session acquired by `viInitialize` is still held on the failing exit. -/
theorem PrepareScreenForDrawing_held_witness :
    Resource.viSession
      ∈ heldAfter framebufferCreateFails (PrepareScreenForDrawing framebufferCreateFails).2 :=
  (PrepareScreenForDrawing_held framebufferCreateFails).2.2 .viSession .viInitialize
    (by decide) (by decide) (by intro name; exact Resource.noConfusion)

/-! ## The depth raise -/

/-- C4, as stated, fails: with every other step succeeding, `viGetDisplayMaximumZ`
succeeding and `viSetLayerZ` failing with `5`, `PrepareScreenForDrawing` returns `5`, not
success, and stops right after `viSetLayerZ`: `viSetLayerPosition`,
`nwindowCreateFromLayer` and `framebufferCreate` are not reached. -/
theorem PrepareScreenForDrawing_propagates_viSetLayerZ :
    (CoreStepsSucceed setLayerZFails ∧ InternalSucceeds setLayerZFails
        ∧ ExternalSucceeds setLayerZFails)
      ∧ PrepareScreenForDrawing setLayerZFails
        = (5, callsThroughLayerSize setLayerZFails ++ [.viGetDisplayMaximumZ, .viSetLayerZ 255])
      ∧ (PrepareScreenForDrawing setLayerZFails).1 ≠ 0 := by
  refine ⟨⟨?_, ?_, ?_⟩, ?_, ?_⟩
  · simp [CoreStepsSucceed, setLayerZFails, okEnv]
  · simp [InternalSucceeds, setLayerZFails, okEnv]
  · simp [ExternalSucceeds, setLayerZFails, okEnv]
  · decide
  · decide

/-- The run of `PrepareScreenForDrawing` up to the depth raise, when every step outside the
depth raise succeeds. -/
theorem PrepareScreenForDrawing_eq_setupLayer (env : Env) (hc : CoreStepsSucceed env)
    (hi : InternalSucceeds env) (he : ExternalSucceeds env) :
    PrepareScreenForDrawing env
      = ((if env.viGetDisplayMaximumZ = 0 then (if env.viSetLayerZ ≠ 0 then env.viSetLayerZ else 0)
            else 0),
          callsThroughLayerSize env ++ .viGetDisplayMaximumZ ::
            (if env.viGetDisplayMaximumZ = 0 then
              .viSetLayerZ env.layer_z ::
                (if env.viSetLayerZ ≠ 0 then [] else callsFromLayerPosition env)
            else callsFromLayerPosition env)) := by
  obtain ⟨c1, c2, c3, c4, c5, c6, c7, c8, c9⟩ := hc
  obtain ⟨i1, i2, i3⟩ := hi
  obtain ⟨e1, e2⟩ := he
  simp only [PrepareScreenForDrawing, SetupDisplayInternal, SetupDisplayExternal, setupLayer,
    positionAndCreate, R_FAILED, R_SUCCEEDED, c1, c2, c3, c4, c5, c6, c7, c8, c9, i1, i2, i3,
    e1, e2, ne_eq, not_true_eq_false, if_false, ret, emit, andThen, onScopeExit,
    callsThroughLayerSize, callsFromLayerPosition]
  split_ifs <;> simp

/-- C4, amended: with every step outside the depth raise succeeding, a failure of
`viGetDisplayMaximumZ` is not propagated (`viSetLayerZ` is skipped and the setup continues
through `viSetLayerPosition`, `nwindowCreateFromLayer` and `framebufferCreate` to return
success), and so it is when both calls of the depth raise succeed; but when
`viGetDisplayMaximumZ` succeeds and `viSetLayerZ` fails, `PrepareScreenForDrawing` returns
the code of `viSetLayerZ` right after that call. -/
theorem PrepareScreenForDrawing_depth_raise (env : Env) (hc : CoreStepsSucceed env)
    (hi : InternalSucceeds env) (he : ExternalSucceeds env) :
    (env.viGetDisplayMaximumZ ≠ 0 →
        PrepareScreenForDrawing env
          = (0, callsThroughLayerSize env ++ [.viGetDisplayMaximumZ]
              ++ callsFromLayerPosition env))
      ∧ (env.viGetDisplayMaximumZ = 0 → env.viSetLayerZ = 0 →
        PrepareScreenForDrawing env
          = (0, callsThroughLayerSize env ++ [.viGetDisplayMaximumZ, .viSetLayerZ env.layer_z]
              ++ callsFromLayerPosition env))
      ∧ (env.viGetDisplayMaximumZ = 0 → env.viSetLayerZ ≠ 0 →
        PrepareScreenForDrawing env
          = (env.viSetLayerZ,
              callsThroughLayerSize env ++ [.viGetDisplayMaximumZ, .viSetLayerZ env.layer_z])) := by
  rw [PrepareScreenForDrawing_eq_setupLayer env hc hi he]
  refine ⟨?_, ?_, ?_⟩
  · intro h
    simp [h]
  · intro h1 h2
    simp [h1, h2]
  · intro h1 h2
    simp [h1, h2]

/-- The statement `PrepareScreenForDrawing_depth_raise` at the run in which
`viGetDisplayMaximumZ` fails with `9`: the setup still returns success. -/
theorem PrepareScreenForDrawing_depth_raise_witness :
    PrepareScreenForDrawing getMaximumZFails
      = (0, callsThroughLayerSize getMaximumZFails ++ [.viGetDisplayMaximumZ]
          ++ callsFromLayerPosition getMaximumZFails) :=
  (PrepareScreenForDrawing_depth_raise getMaximumZFails
    (by simp [CoreStepsSucceed, getMaximumZFails, okEnv])
    (by simp [InternalSucceeds, getMaximumZFails, okEnv])
    (by simp [ExternalSucceeds, getMaximumZFails, okEnv])).1 (by decide)

/-! ## The two scoped display helpers -/

/-- The four outcomes of `SetupDisplayInternal`. -/
theorem SetupDisplayInternal_eq (env : Env) :
    SetupDisplayInternal env
      = if env.viOpenDisplay .Internal = 0 then
          if env.viSetDisplayPowerState = 0 then
            (env.viSetDisplayAlpha .Internal,
              [.viOpenDisplay .Internal, .viSetDisplayPowerState (.ofName .Internal),
               .viSetDisplayAlpha (.ofName .Internal), .viCloseDisplay (.ofName .Internal)])
          else
            (env.viSetDisplayPowerState,
              [.viOpenDisplay .Internal, .viSetDisplayPowerState (.ofName .Internal),
               .viCloseDisplay (.ofName .Internal)])
        else if env.viOpenDisplay .Internal = 0xE72 then (0, [.viOpenDisplay .Internal])
        else (env.viOpenDisplay .Internal, [.viOpenDisplay .Internal]) := by
  simp only [SetupDisplayInternal, R_FAILED, ret, emit, onScopeExit]
  split_ifs <;> simp_all

/-- The run of `ShowFatal` when `PrepareScreenForDrawing` fails. -/
theorem ShowFatal_of_failure (env : Env) (h : (PrepareScreenForDrawing env).1 ≠ 0) :
    ShowFatal env
      = { rc := (PrepareScreenForDrawing env).1,
          trace := (PrepareScreenForDrawing env).2
            ++ [.store32 0xCAFEBABE (PrepareScreenForDrawing env).1],
          buf := none } := by
  simp only [ShowFatal, R_FAILED, h, ne_eq, not_false_eq_true, if_true]

/-- The run of `PrepareScreenForDrawing` when `viInitialize` and `SetupDisplayInternal`
succeed and the external display fails to open with a code other than `0xE72`. -/
theorem PrepareScreenForDrawing_of_external_failure (env : Env) (hinit : env.viInitialize = 0)
    (hint : (SetupDisplayInternal env).1 = 0) (hrc : env.viOpenDisplay .External ≠ 0)
    (habsent : env.viOpenDisplay .External ≠ 0xE72) :
    PrepareScreenForDrawing env
      = (env.viOpenDisplay .External,
          [.viInitialize, .viSetContentVisibility false] ++ (SetupDisplayInternal env).2
            ++ [.viOpenDisplay .External]) := by
  simp only [PrepareScreenForDrawing, SetupDisplayExternal, R_FAILED, hinit, hint, hrc, habsent,
    ne_eq, not_true_eq_false, not_false_eq_true, if_true, if_false, ret, emit, andThen,
    List.append_nil, List.cons_append, List.nil_append]

/-- C5: if `viInitialize` and `SetupDisplayInternal` succeed and `viOpenDisplay("External")`
returns a failure code other than `0xE72`, then `ShowFatal` and `Run` return exactly that
code; the calls of the run are `eventWait`, `viInitialize`, `viSetContentVisibility`, the
calls of `SetupDisplayInternal`, `viOpenDisplay("External")` and the store of the code to
`0xCAFEBABE`, so no later setup step is invoked; and the internal display was either absent
(nothing opened) or opened and closed by `viCloseDisplay` as the last call of
`SetupDisplayInternal`, before `SetupDisplayExternal` is entered. -/
theorem Run_of_external_failure (env : Env) (hinit : env.viInitialize = 0)
    (hint : (SetupDisplayInternal env).1 = 0) (hrc : env.viOpenDisplay .External ≠ 0)
    (habsent : env.viOpenDisplay .External ≠ 0xE72) :
    (ShowFatal env).rc = env.viOpenDisplay .External
      ∧ (Run env).rc = env.viOpenDisplay .External
      ∧ (Run env).trace
        = [.eventWait, .viInitialize, .viSetContentVisibility false]
            ++ (SetupDisplayInternal env).2
            ++ [.viOpenDisplay .External, .store32 0xCAFEBABE (env.viOpenDisplay .External)]
      ∧ ((env.viOpenDisplay .Internal = 0xE72
            ∧ (SetupDisplayInternal env).2 = [.viOpenDisplay .Internal])
          ∨ (env.viOpenDisplay .Internal = 0
            ∧ (SetupDisplayInternal env).2
              = [.viOpenDisplay .Internal, .viSetDisplayPowerState (.ofName .Internal),
                 .viSetDisplayAlpha (.ofName .Internal),
                 .viCloseDisplay (.ofName .Internal)])) := by
  have hp := PrepareScreenForDrawing_of_external_failure env hinit hint hrc habsent
  have hfail : (PrepareScreenForDrawing env).1 ≠ 0 := by rw [hp]; exact hrc
  have hs := ShowFatal_of_failure env hfail
  refine ⟨?_, ?_, ?_, ?_⟩
  · rw [hs, hp]
  · simp only [Run]
    rw [hs, hp]
  · simp only [Run]
    rw [hs, hp]
    simp
  · rw [SetupDisplayInternal_eq] at hint ⊢
    split_ifs at hint ⊢ with h1 h2 h3
    · exact Or.inr ⟨h1, rfl⟩
    · exact absurd hint h2
    · exact Or.inl ⟨h3, rfl⟩
    · exact absurd hint h1

/-- The statement `Run_of_external_failure` at the run in which the internal display opens
and the external display fails to open with `0x1234`. -/
theorem Run_of_external_failure_witness :
    (Run externalOpenFails).rc = 0x1234
      ∧ (Run externalOpenFails).trace
        = [.eventWait, .viInitialize, .viSetContentVisibility false, .viOpenDisplay .Internal,
           .viSetDisplayPowerState (.ofName .Internal), .viSetDisplayAlpha (.ofName .Internal),
           .viCloseDisplay (.ofName .Internal), .viOpenDisplay .External,
           .store32 0xCAFEBABE 0x1234] :=
  have h := Run_of_external_failure externalOpenFails (by decide) (by decide) (by decide)
    (by decide)
  ⟨h.2.1, h.2.2.1⟩

/-- C6: if `viOpenDisplay("Internal")` returns the absent code `0xE72`, then
`SetupDisplayInternal` returns `0` having issued that one call only (no
`viSetDisplayPowerState`, `viSetDisplayAlpha` or `viCloseDisplay`, and no display of that
scope held); once `viInitialize` has succeeded the setup goes on to
`viOpenDisplay("External")`; and if every remaining step succeeds,
`PrepareScreenForDrawing` returns success having run every later step. -/
theorem PrepareScreenForDrawing_of_internal_absent (env : Env)
    (habsent : env.viOpenDisplay .Internal = 0xE72) :
    SetupDisplayInternal env = (0, [.viOpenDisplay .Internal])
      ∧ heldAfter env (SetupDisplayInternal env).2 = []
      ∧ (env.viInitialize = 0 →
          (PrepareScreenForDrawing env).2.take 4
            = [.viInitialize, .viSetContentVisibility false, .viOpenDisplay .Internal,
               .viOpenDisplay .External])
      ∧ (CoreStepsSucceed env → ExternalSucceeds env → DepthRaiseSucceeds env →
          PrepareScreenForDrawing env
            = (0, [.viInitialize, .viSetContentVisibility false, .viOpenDisplay .Internal,
                   .viOpenDisplay .External, .viSetDisplayAlpha (.ofName .External),
                   .viCloseDisplay (.ofName .External), .viOpenDefaultDisplay,
                   .viGetDisplayLogicalResolution,
                   .viSetDisplayMagnification 0 0 env.display_width env.display_height,
                   .viCreateLayer, .viSetLayerSize layer_width layer_height,
                   .viGetDisplayMaximumZ, .viSetLayerZ env.layer_z]
                  ++ callsFromLayerPosition env)) := by
  have hs : SetupDisplayInternal env = (0, [.viOpenDisplay .Internal]) := by
    rw [SetupDisplayInternal_eq]
    simp [habsent]
  refine ⟨hs, ?_, ?_, ?_⟩
  · rw [hs]
    simp [heldAfter, holdStep, releasedBy, acquiredBy, habsent]
  · intro hinit
    simp only [PrepareScreenForDrawing, R_FAILED, hinit, hs, ne_eq, not_true_eq_false, if_false,
      emit_snd, andThen_snd, List.singleton_append, List.cons_append, List.nil_append]
    rw [show (SetupDisplayExternal env).2 = Call.viOpenDisplay .External
      :: (SetupDisplayExternal env).2.tail from rfl]
    rfl
  · intro hc he hd
    obtain ⟨c1, c2, c3, c4, c5, c6, c7, c8, c9⟩ := hc
    obtain ⟨e1, e2⟩ := he
    obtain ⟨d1, d2⟩ := hd
    simp only [PrepareScreenForDrawing, hs, SetupDisplayExternal, setupLayer,
      positionAndCreate, R_FAILED, R_SUCCEEDED, c1, c2, c3, c4, c5, c6, c7, c8, c9, d1, d2,
      e1, e2, ne_eq, not_true_eq_false, if_false, if_true, ret, emit, andThen, onScopeExit,
      callsFromLayerPosition, List.cons_append, List.nil_append, List.append_nil]

/-- The statement `PrepareScreenForDrawing_of_internal_absent` at the run in which the
internal display is absent and every other call succeeds: the setup returns success. -/
theorem PrepareScreenForDrawing_of_internal_absent_witness :
    (PrepareScreenForDrawing internalAbsent).1 = 0
      ∧ Call.viOpenDisplay .External ∈ (PrepareScreenForDrawing internalAbsent).2
      ∧ Call.viCloseDisplay (.ofName .Internal) ∉ (PrepareScreenForDrawing internalAbsent).2 :=
  have h := (PrepareScreenForDrawing_of_internal_absent internalAbsent (by decide)).2.2.2
    (by simp [CoreStepsSucceed, internalAbsent, okEnv])
    (by simp [ExternalSucceeds, internalAbsent, okEnv])
    (by simp [DepthRaiseSucceeds, internalAbsent, okEnv])
  ⟨by rw [h], by rw [h]; decide, by rw [h]; decide⟩

/-! ## The diagnostic store of `ShowFatal` -/

/-- The setup stores nothing: `PrepareScreenForDrawing` issues no `store32`. -/
theorem PrepareScreenForDrawing_no_store (env : Env) (a v : Nat) :
    Call.store32 a v ∉ (PrepareScreenForDrawing env).2 := by
  intro h
  have hmem := PrepareScreenForDrawing_calls env _ h
  simp [setupCalls] at hmem

/-- The run of `ShowFatal` when `PrepareScreenForDrawing` succeeds and `framebufferBegin`
returns the null pointer. -/
theorem ShowFatal_of_null_buffer (env : Env) (h : (PrepareScreenForDrawing env).1 = 0)
    (hnull : env.framebufferBegin = none) :
    ShowFatal env
      = { rc := env.FatalResult_NullGfxBuffer,
          trace := (PrepareScreenForDrawing env).2 ++ [.framebufferBegin],
          buf := none } := by
  simp only [ShowFatal, R_FAILED, h, hnull, ne_eq, not_true_eq_false, if_false]

/-- The calls of `ShowFatal` after a successful setup are not stores. -/
theorem ShowFatal_no_store_of_success (env : Env) (h : (PrepareScreenForDrawing env).1 = 0)
    (a v : Nat) : Call.store32 a v ∉ (ShowFatal env).trace := by
  have hp := PrepareScreenForDrawing_no_store env a v
  simp only [ShowFatal, R_FAILED, h, ne_eq, not_true_eq_false, if_false]
  cases env.framebufferBegin <;> simp [hp]

/-- C7: if `PrepareScreenForDrawing` succeeds and `framebufferBegin` returns the null
pointer, `ShowFatal` returns `FatalResult_NullGfxBuffer` and stores nothing; `ShowFatal`
stores to the address `0xCAFEBABE` exactly when `PrepareScreenForDrawing` fails; any store
it makes is to that address, of the code `PrepareScreenForDrawing` returned, which is the
code `ShowFatal` returns; and on a failed setup that store is the one call `ShowFatal` adds
to those of the setup. -/
theorem ShowFatal_diagnostic_store (env : Env) :
    ((PrepareScreenForDrawing env).1 = 0 → env.framebufferBegin = none →
        (ShowFatal env).rc = env.FatalResult_NullGfxBuffer
          ∧ ∀ a v, Call.store32 a v ∉ (ShowFatal env).trace)
      ∧ ((∃ v, Call.store32 0xCAFEBABE v ∈ (ShowFatal env).trace)
          ↔ (PrepareScreenForDrawing env).1 ≠ 0)
      ∧ (∀ a v, Call.store32 a v ∈ (ShowFatal env).trace →
          a = 0xCAFEBABE ∧ v = (ShowFatal env).rc ∧ v = (PrepareScreenForDrawing env).1)
      ∧ ((PrepareScreenForDrawing env).1 ≠ 0 →
          (ShowFatal env).trace
            = (PrepareScreenForDrawing env).2 ++ [.store32 0xCAFEBABE (ShowFatal env).rc]) := by
  refine ⟨?_, ?_, ?_, ?_⟩
  · intro h hnull
    refine ⟨?_, ShowFatal_no_store_of_success env h⟩
    rw [ShowFatal_of_null_buffer env h hnull]
  · constructor
    · rintro ⟨v, hv⟩ h
      exact ShowFatal_no_store_of_success env h _ _ hv
    · intro h
      refine ⟨(PrepareScreenForDrawing env).1, ?_⟩
      rw [ShowFatal_of_failure env h]
      simp
  · intro a v hv
    by_cases h : (PrepareScreenForDrawing env).1 = 0
    · exact absurd hv (ShowFatal_no_store_of_success env h a v)
    · rw [ShowFatal_of_failure env h] at hv ⊢
      have hp := PrepareScreenForDrawing_no_store env a v
      simp only [List.mem_append, List.mem_singleton, Call.store32.injEq, hp, false_or] at hv
      exact ⟨hv.1, hv.2, hv.2⟩
  · intro h
    rw [ShowFatal_of_failure env h]

/-- The statement `ShowFatal_diagnostic_store` at the run in which every call succeeds and
`framebufferBegin` returns the null pointer. -/
theorem ShowFatal_diagnostic_store_witness :
    (ShowFatal nullBuffer).rc = 0x4A3
      ∧ ∀ a v, Call.store32 a v ∉ (ShowFatal nullBuffer).trace :=
  (ShowFatal_diagnostic_store nullBuffer).1 (by decide) rfl

/-! ## The position of the layer -/

/-- The layer is sized `1920 x 1080`, which is `1.5` times `1280 x 720`. -/
theorem layer_size : layer_width = 1920 ∧ layer_height = 1080 := by decide

/-- On a display at least as large as the layer the position is the centred one: the
coordinates are the halved differences, and the margins on the two sides differ by at most
one. -/
theorem layer_position_of_large_display (w h : Nat) (hw : 1920 ≤ w) (hw32 : w < 2 ^ 32)
    (hh : 1080 ≤ h) (hh32 : h < 2 ^ 32) :
    layer_x w = (w - 1920) / 2 ∧ layer_y h = (h - 1080) / 2
      ∧ (w - (layer_x w + 1920)) - layer_x w ≤ 1 ∧ layer_x w ≤ w - (layer_x w + 1920)
      ∧ (h - (layer_y h + 1080)) - layer_y h ≤ 1 ∧ layer_y h ≤ h - (layer_y h + 1080) := by
  have e1 : layer_width = 1920 := by decide
  have e2 : layer_height = 1080 := by decide
  simp only [layer_x, layer_y, u32sub, e1, e2]
  omega

/-- C9 fails on the code: on a display that reports `1280 x 720` the setup positions the
layer at `(2147483328, 2147483468)`, the halves of the differences `1280 - 1920` and
`720 - 1080` wrapped modulo `2 ^ 32`, where the centred position is `(-320, -180)`. -/
theorem layer_position_display720 :
    layer_x 1280 = 2147483328 ∧ layer_y 720 = 2147483468
      ∧ Call.viSetLayerPosition 2147483328 2147483468 ∈ (PrepareScreenForDrawing display720).2
      ∧ ((1280 : Int) - 1920) / 2 = -320 ∧ ((720 : Int) - 1080) / 2 = -180
      ∧ (layer_x 1280 : Int) ≠ ((1280 : Int) - 1920) / 2
      ∧ (layer_y 720 : Int) ≠ ((720 : Int) - 1080) / 2 := by
  decide

/-! ## The addressor on the logical and on the padded surface -/

/-- C1: `GetPixelOffset` is injective on the logical surface: for `x1, x2 < 1280` and
`y1, y2 < 720`, equal offsets come from equal pixels. -/
theorem GetPixelOffset_injective (x1 y1 x2 y2 : Nat) (hx1 : x1 < 1280) (hy1 : y1 < 720)
    (hx2 : x2 < 1280) (hy2 : y2 < 720) (h : GetPixelOffset x1 y1 = GetPixelOffset x2 y2) :
    x1 = x2 ∧ y1 = y2 :=
  GetPixelOffset_inj_padded x1 y1 x2 y2 hx1 (by omega) hx2 (by omega) h

/-- The statement `GetPixelOffset_injective` at the corner pixel `(1279, 719)`. -/
theorem GetPixelOffset_injective_witness :
    GetPixelOffset 1279 719 = GetPixelOffset 1279 719 ∧ (1279 = 1279 ∧ 719 = 719) :=
  ⟨rfl, GetPixelOffset_injective 1279 719 1279 719 (by decide) (by decide) (by decide)
    (by decide) rfl⟩

/-- C2, as stated, fails: the corner pixel `(1279, 719)` of the logical surface has offset
`981503`, which is not below the declared element count `2560 * 720 / 2 = 921600`. -/
theorem GetPixelOffset_corner_not_lt_declared :
    1279 < FatalScreenWidth ∧ 719 < FatalScreenHeight ∧ declaredTotalElements = 921600
      ∧ GetPixelOffset 1279 719 = 981503
      ∧ ¬ GetPixelOffset 1279 719 < declaredTotalElements := by
  decide

/-- C2, amended: for every `x < 1280` and `y < 720`, `GetPixelOffset x y` lies below
`983040`, the element count of the surface padded to whole 128-row bands
(`2560 * 768 / 2`). -/
theorem GetPixelOffset_lt_paddedTotalElements (x y : Nat) (hx : x < 1280) (hy : y < 720) :
    GetPixelOffset x y < paddedTotalElements ∧ paddedTotalElements = 983040
      ∧ paddedTotalElements = FatalScreenWidthAlignedBytes * 768 / FatalScreenBpp := by
  refine ⟨?_, by rfl, by rfl⟩
  rw [paddedTotalElements_eq]
  exact GetPixelOffset_lt_padded x y hx (by omega)

/-- The statement `GetPixelOffset_lt_paddedTotalElements` at the corner pixel
`(1279, 719)`. -/
theorem GetPixelOffset_lt_paddedTotalElements_witness :
    GetPixelOffset 1279 719 < paddedTotalElements :=
  (GetPixelOffset_lt_paddedTotalElements 1279 719 (by decide) (by decide)).1

/-- C10: on the surface padded to whole 128-row bands (`x < 1280`, `y < 768`),
`GetPixelOffset` is injective, every value is below `983040 = 1280 * 768`, every index
below `983040` is the offset of some pixel, no step of the 32-bit computation wraps (the
total before the division, computed without reduction, is below `2 ^ 32`), the division by
`2` is exact, and `983040` is the least buffer length that contains every offset. -/
theorem GetPixelOffset_bijective_padded :
    (∀ x1 y1 x2 y2, x1 < 1280 → y1 < 768 → x2 < 1280 → y2 < 768 →
        GetPixelOffset x1 y1 = GetPixelOffset x2 y2 → x1 = x2 ∧ y1 = y2)
      ∧ (∀ x y, x < 1280 → y < 768 → GetPixelOffset x y < 983040)
      ∧ (∀ k, k < 983040 → ∃ x y, x < 1280 ∧ y < 768 ∧ GetPixelOffset x y = k)
      ∧ (∀ x y, x < 1280 → y < 768 →
          tmpPosUnbounded x y < 2 ^ 32 ∧ tmpPosUnbounded x y % 2 = 0
            ∧ GetPixelOffset x y = tmpPosUnbounded x y / 2)
      ∧ (∀ n, (∀ x y, x < 1280 → y < 768 → GetPixelOffset x y < n) ↔ 983040 ≤ n)
      ∧ 983040 = 1280 * 768 := by
  refine ⟨GetPixelOffset_inj_padded, GetPixelOffset_lt_padded, ?_, ?_, ?_, by decide⟩
  · intro k hk
    obtain ⟨h1, h2, h3⟩ := GetPixelOffset_pixelOfOffset k hk
    exact ⟨_, _, h1, h2, h3⟩
  · intro x y hx hy
    have hlt := GetPixelOffset_lt_padded x y hx hy
    have hc := GetPixelOffset_closed x y hx hy
    have hu := tmpPosUnbounded_closed x y
    rw [← hc] at hu
    clear hc
    omega
  · intro n
    constructor
    · intro h
      obtain ⟨h1, h2, h3⟩ := GetPixelOffset_pixelOfOffset 983039 (by decide)
      have := h _ _ h1 h2
      omega
    · intro hn x y hx hy
      have := GetPixelOffset_lt_padded x y hx hy
      omega

/-- The statement `GetPixelOffset_bijective_padded` at the last pixel `(1279, 767)` of the
padded surface and at the last index `983039`. -/
theorem GetPixelOffset_bijective_padded_witness :
    GetPixelOffset 1279 767 < 983040
      ∧ (∃ x y, x < 1280 ∧ y < 768 ∧ GetPixelOffset x y = 983039)
      ∧ (tmpPosUnbounded 1279 767 < 2 ^ 32 ∧ tmpPosUnbounded 1279 767 % 2 = 0
          ∧ GetPixelOffset 1279 767 = tmpPosUnbounded 1279 767 / 2) :=
  ⟨GetPixelOffset_bijective_padded.2.1 1279 767 (by decide) (by decide),
    GetPixelOffset_bijective_padded.2.2.1 983039 (by decide),
    GetPixelOffset_bijective_padded.2.2.2.1 1279 767 (by decide) (by decide)⟩

/-! ## Background fill and logo blit -/

/-- A fold of stores leaves an element untouched when no store targets it. -/
theorem foldl_store_of_not_mem {α : Type} (idx val : α → Nat) (l : List α) (j : Nat) :
    ∀ buf : Nat → Nat, (∀ a ∈ l, idx a ≠ j) →
      (l.foldl (fun b a => store b (idx a) (val a)) buf) j = buf j := by
  induction l with
  | nil => intro buf _; rfl
  | cons a t ih =>
    intro buf h
    rw [List.foldl_cons, ih _ (fun a' ha' => h a' (List.mem_cons_of_mem _ ha'))]
    have hne : j ≠ idx a := fun e => h a (List.mem_cons_self _ _) e.symm
    simp [store, hne]

/-- A fold of stores leaves in a targeted element the value all stores to it agree on. -/
theorem foldl_store_of_mem {α : Type} (idx val : α → Nat) (l : List α) (j v : Nat) :
    ∀ buf : Nat → Nat, (∃ a ∈ l, idx a = j) → (∀ a ∈ l, idx a = j → val a = v) →
      (l.foldl (fun b a => store b (idx a) (val a)) buf) j = v := by
  induction l with
  | nil =>
    intro buf h
    obtain ⟨a, ha, _⟩ := h
    cases ha
  | cons a t ih =>
    intro buf hex hall
    rw [List.foldl_cons]
    by_cases ht : ∃ a' ∈ t, idx a' = j
    · exact ih _ ht (fun a' ha' => hall a' (List.mem_cons_of_mem _ ha'))
    · have hnot : ∀ a' ∈ t, idx a' ≠ j := fun a' ha' e => ht ⟨a', ha', e⟩
      rw [foldl_store_of_not_mem idx val t j _ hnot]
      obtain ⟨a', ha', e⟩ := hex
      rcases List.mem_cons.1 ha' with e' | e'
      · subst e'
        have hv := hall a' (List.mem_cons_self _ _) e
        simp [store, e, hv]
      · exact absurd e (hnot a' e')

/-- The background loop sets exactly the elements below `fb_size / 2`. -/
theorem drawBackground_apply (fb_size : Nat) (tiled_buf : Nat → Nat) (j : Nat) :
    drawBackground fb_size tiled_buf j = if j < fb_size / 2 then 0x39C9 else tiled_buf j := by
  unfold drawBackground
  split
  · next h =>
    exact foldl_store_of_mem (fun i => i) (fun _ => 0x39C9) _ j 0x39C9 tiled_buf
      ⟨j, List.mem_range.2 h, rfl⟩ (fun _ _ _ => rfl)
  · next h =>
    exact foldl_store_of_not_mem (fun i => i) (fun _ => 0x39C9) _ j tiled_buf
      (fun a ha e => h (e ▸ List.mem_range.1 ha))

/-- Two nested folds are one fold over the pairs, rows outermost. -/
theorem foldl_foldl_eq_foldl_product {β : Type} (g : β → Nat × Nat → β) (l1 l2 : List Nat) :
    ∀ b : β, l1.foldl (fun b y => l2.foldl (fun b x => g b (y, x)) b) b
      = (List.product l1 l2).foldl g b := by
  induction l1 with
  | nil => intro b; rfl
  | cons y t ih =>
    intro b
    have hp : (y :: t).product l2 = l2.map (fun x => (y, x)) ++ t.product l2 :=
      List.product_cons y t l2
    rw [List.foldl_cons, hp, List.foldl_append, List.foldl_map, ih]

/-- The logo loops as one fold of stores over the pairs `(y, x)`. -/
theorem drawLogo_eq_foldl (logo : Logo) (tiled_buf : Nat → Nat) :
    drawLogo logo tiled_buf
      = (List.product (List.range logo.AMS_LOGO_HEIGHT) (List.range logo.AMS_LOGO_WIDTH)).foldl
          (fun b p => store b (GetPixelOffset (logoX logo p.2) (logoY logo p.1))
            (logo.AMS_LOGO_BIN (p.1 * logo.AMS_LOGO_WIDTH + p.2))) tiled_buf := by
  unfold drawLogo
  exact foldl_foldl_eq_foldl_product
    (fun b p => store b (GetPixelOffset (logoX logo p.2) (logoY logo p.1))
      (logo.AMS_LOGO_BIN (p.1 * logo.AMS_LOGO_WIDTH + p.2))) _ _ tiled_buf

/-- The column a logo column is drawn to, when the logo fits: no wrap occurs. -/
theorem logoX_eq (logo : Logo) (x : Nat) (hW : logo.AMS_LOGO_WIDTH ≤ 1248)
    (hx : x < logo.AMS_LOGO_WIDTH) : logoX logo x = 1280 - logo.AMS_LOGO_WIDTH - 32 + x := by
  simp only [logoX, u32, u32sub, FatalScreenWidth]
  omega

/-- The row a logo row is drawn to, when the logo fits: no wrap occurs. -/
theorem logoY_eq (logo : Logo) (y : Nat) (hH : logo.AMS_LOGO_HEIGHT ≤ 688)
    (hy : y < logo.AMS_LOGO_HEIGHT) : logoY logo y = 720 - logo.AMS_LOGO_HEIGHT - 32 + y := by
  simp only [logoY, u32, u32sub, FatalScreenHeight]
  omega

/-- The contents the two drawing loops leave, for any logo that fits and any buffer: every
logo pixel is found at the offset of its target position, which lies at least 32 pixels
inside the right and bottom edges, and every other element below `fb_size / 2` holds the
background colour. -/
theorem drawLogo_drawBackground_apply (logo : Logo) (fb_size : Nat) (tiled_buf : Nat → Nat)
    (hW : logo.AMS_LOGO_WIDTH ≤ 1248) (hH : logo.AMS_LOGO_HEIGHT ≤ 688) :
    (∀ lx, lx < logo.AMS_LOGO_WIDTH → ∀ ly, ly < logo.AMS_LOGO_HEIGHT →
        logoX logo lx = 1280 - logo.AMS_LOGO_WIDTH - 32 + lx
          ∧ logoY logo ly = 720 - logo.AMS_LOGO_HEIGHT - 32 + ly
          ∧ 1280 - logo.AMS_LOGO_WIDTH - 32 + lx < 1280 - 32
          ∧ 720 - logo.AMS_LOGO_HEIGHT - 32 + ly < 720 - 32
          ∧ drawLogo logo (drawBackground fb_size tiled_buf)
              (GetPixelOffset (1280 - logo.AMS_LOGO_WIDTH - 32 + lx)
                (720 - logo.AMS_LOGO_HEIGHT - 32 + ly))
            = logo.AMS_LOGO_BIN (ly * logo.AMS_LOGO_WIDTH + lx))
      ∧ (∀ i, i < fb_size / 2 →
          (¬ ∃ lx ly, lx < logo.AMS_LOGO_WIDTH ∧ ly < logo.AMS_LOGO_HEIGHT
            ∧ i = GetPixelOffset (1280 - logo.AMS_LOGO_WIDTH - 32 + lx)
                (720 - logo.AMS_LOGO_HEIGHT - 32 + ly)) →
          drawLogo logo (drawBackground fb_size tiled_buf) i = 0x39C9) := by
  constructor
  · intro lx hlx ly hly
    have ex := logoX_eq logo lx hW hlx
    have ey := logoY_eq logo ly hH hly
    refine ⟨ex, ey, by omega, by omega, ?_⟩
    rw [drawLogo_eq_foldl, ← ex, ← ey]
    apply foldl_store_of_mem
      (fun p : Nat × Nat => GetPixelOffset (logoX logo p.2) (logoY logo p.1))
      (fun p : Nat × Nat => logo.AMS_LOGO_BIN (p.1 * logo.AMS_LOGO_WIDTH + p.2))
    · exact ⟨(ly, lx), List.mem_product.2 ⟨List.mem_range.2 hly, List.mem_range.2 hlx⟩, rfl⟩
    · rintro ⟨y, x⟩ hp e
      obtain ⟨hy, hx⟩ := List.mem_product.1 hp
      have hy := List.mem_range.1 hy
      have hx := List.mem_range.1 hx
      have ex2 := logoX_eq logo x hW hx
      have ey2 := logoY_eq logo y hH hy
      have hinj := GetPixelOffset_inj_padded (logoX logo x) (logoY logo y) (logoX logo lx)
        (logoY logo ly) (by omega) (by omega) (by omega) (by omega) e
      have hxx : x = lx := by omega
      have hyy : y = ly := by omega
      simp only [hxx, hyy]
  · intro i hi hnot
    rw [drawLogo_eq_foldl, foldl_store_of_not_mem, drawBackground_apply, if_pos hi]
    rintro ⟨y, x⟩ hp e
    obtain ⟨hy, hx⟩ := List.mem_product.1 hp
    have hy := List.mem_range.1 hy
    have hx := List.mem_range.1 hx
    apply hnot
    refine ⟨x, y, hx, hy, ?_⟩
    rw [← logoX_eq logo x hW hx, ← logoY_eq logo y hH hy]
    exact e.symm

/-- The buffer `ShowFatal` enqueues after a successful setup and a non-null
`framebufferBegin`: the dequeued buffer after the background fill, the logo blit and the
drawing of the `FontManager`, in that order. -/
theorem ShowFatal_buf (env : Env) (tiled_buf : Nat → Nat)
    (hprep : (PrepareScreenForDrawing env).1 = 0)
    (hbuf : env.framebufferBegin = some tiled_buf) :
    (ShowFatal env).buf
      = some (env.fontDraw (drawLogo env.logo (drawBackground env.fb_size tiled_buf))) := by
  simp only [ShowFatal, R_FAILED, hprep, hbuf, ne_eq, not_true_eq_false, if_false]

/-- C8: when the setup succeeds and `framebufferBegin` returns a buffer `tiled_buf` of
`fb_size / 2` elements, for a logo of width `W <= 1248` and height `H <= 688`, `ShowFatal`
hands to the `FontManager` drawing, and then enqueues, the buffer `frame` that the
background fill followed by the logo blit leave: for every logo pixel `(lx, ly)`, `frame`
holds `AMS_LOGO_BIN[ly * W + lx]` at index
`GetPixelOffset (1280 - W - 32 + lx) (720 - H - 32 + ly)` (no logo pixel is overwritten by
another), that position lies at least 32 pixels inside the right and bottom edges of the
logical surface, and every other element of the buffer holds the background colour
`0x39C9`. -/
theorem ShowFatal_frame (env : Env) (tiled_buf : Nat → Nat)
    (hprep : (PrepareScreenForDrawing env).1 = 0)
    (hbuf : env.framebufferBegin = some tiled_buf)
    (hW : env.logo.AMS_LOGO_WIDTH ≤ 1248) (hH : env.logo.AMS_LOGO_HEIGHT ≤ 688) :
    ∃ frame : Nat → Nat,
      (ShowFatal env).buf = some (env.fontDraw frame)
        ∧ frame = drawLogo env.logo (drawBackground env.fb_size tiled_buf)
        ∧ (∀ lx, lx < env.logo.AMS_LOGO_WIDTH → ∀ ly, ly < env.logo.AMS_LOGO_HEIGHT →
            logoX env.logo lx = 1280 - env.logo.AMS_LOGO_WIDTH - 32 + lx
              ∧ logoY env.logo ly = 720 - env.logo.AMS_LOGO_HEIGHT - 32 + ly
              ∧ 1280 - env.logo.AMS_LOGO_WIDTH - 32 + lx < 1280 - 32
              ∧ 720 - env.logo.AMS_LOGO_HEIGHT - 32 + ly < 720 - 32
              ∧ frame (GetPixelOffset (1280 - env.logo.AMS_LOGO_WIDTH - 32 + lx)
                    (720 - env.logo.AMS_LOGO_HEIGHT - 32 + ly))
                = env.logo.AMS_LOGO_BIN (ly * env.logo.AMS_LOGO_WIDTH + lx))
        ∧ (∀ i, i < env.fb_size / 2 →
            (¬ ∃ lx ly, lx < env.logo.AMS_LOGO_WIDTH ∧ ly < env.logo.AMS_LOGO_HEIGHT
              ∧ i = GetPixelOffset (1280 - env.logo.AMS_LOGO_WIDTH - 32 + lx)
                  (720 - env.logo.AMS_LOGO_HEIGHT - 32 + ly)) →
            frame i = 0x39C9) := by
  obtain ⟨h1, h2⟩ := drawLogo_drawBackground_apply env.logo env.fb_size tiled_buf hW hH
  exact ⟨_, ShowFatal_buf env tiled_buf hprep hbuf, rfl, h1, h2⟩

/-- The statement `ShowFatal_frame` at the run in which every call succeeds, with a `2 x 2`
logo, a zeroed buffer of the padded surface size (`1966080` bytes) and a `FontManager` that
draws nothing: the enqueued buffer holds the last logo pixel, `AMS_LOGO_BIN[3] = 103`, at
the offset of the pixel `(1247, 687)`. -/
theorem ShowFatal_frame_witness :
    ∃ frame : Nat → Nat,
      (ShowFatal okEnv).buf = some frame ∧ frame (GetPixelOffset 1247 687) = 103 :=
  have h := ShowFatal_frame okEnv (fun _ => 0) (by decide) rfl (by decide) (by decide)
  h.elim fun frame hf =>
    ⟨frame, hf.1, (hf.2.2.1 1 (by decide) 1 (by decide)).2.2.2.2⟩

end Fatal
